import Mathlib

/-!
Shallow embedding of the "Cosmic Flow" hand-motion galaxy application.

Components modelled, with their source locations:
* velocity estimator   — `MotionController.predictWebcam` (src/unnamed/part_001)
* temporal smoother    — lerp loop in `App` (src/unnamed/part_000)
* session statistics   — stats accumulation in `App` / `handleEndSession`
  (src/unnamed/part_000)
* audio engine         — `AudioEngine.init` / `AudioEngine.updateWind`
  (src/services/audioService.ts)
* particle field       — galaxy generation loop in `GalaxyScene`
  (src/unnamed/part_001)

Machine floats are modelled as exact rationals (`ℚ`) where the code only
uses field operations, and as reals (`ℝ`) where the code calls
`Math.sqrt` / `Math.cos` / `Math.sin` / `Math.pow`.
-/

namespace CosmicFlow

/-! ### Temporal smoother

Source (src/unnamed/part_000, `App`):
```
setSmoothedVelocity(prev => {
  const diff = velocity - prev;
  return prev + diff * 0.1; // Lerp factor
});
```
-/

/-- One smoothing tick: `prev + (velocity - prev) * 0.1`. -/
def smoothTick (target prev : ℚ) : ℚ := prev + (target - prev) * 0.1

/-- State after `n` smoothing ticks with a constant target, starting from `s0`. -/
def smoothIter (target s0 : ℚ) : ℕ → ℚ
  | 0 => s0
  | n + 1 => smoothTick target (smoothIter target s0 n)

/-! ### Session statistics

Source (src/unnamed/part_000, `App`):
```
if (smoothedVelocity > 0.05) {
  sessionStats.current.totalVelocity += smoothedVelocity;
  sessionStats.current.samples++;
  if (smoothedVelocity > sessionStats.current.peakVelocity) {
    sessionStats.current.peakVelocity = smoothedVelocity;
  }
}
```
and (`handleEndSession`):
```
const duration = (Date.now() - sessionStats.current.startTime) / 1000;
const avgSpeed = sessionStats.current.samples > 0
  ? sessionStats.current.totalVelocity / sessionStats.current.samples
  : 0;
```
-/

structure SessionStats where
  totalVelocity : ℚ
  peakVelocity : ℚ
  samples : ℕ
  startTime : ℚ

/-- The reset performed by `handleStart`: all counters zero, start time recorded. -/
def initStats (t : ℚ) : SessionStats :=
  { totalVelocity := 0, peakVelocity := 0, samples := 0, startTime := t }

/-- One stats update as performed per render tick while ACTIVE. -/
def recordStat (v : ℚ) (s : SessionStats) : SessionStats :=
  if 0.05 < v then
    { s with
      totalVelocity := s.totalVelocity + v
      samples := s.samples + 1
      peakVelocity := if s.peakVelocity < v then v else s.peakVelocity }
  else s

/-- Folding a whole sequence of smoothed-intensity samples into the stats. -/
def recordAll (vs : List ℚ) (s : SessionStats) : SessionStats :=
  vs.foldl (fun acc v => recordStat v acc) s

/-- The read-out performed by `handleEndSession`: average speed, peak, duration
in seconds, where `now` is the current clock value in milliseconds. -/
def finalizeStats (now : ℚ) (s : SessionStats) : ℚ × ℚ × ℚ :=
  ((if 0 < s.samples then s.totalVelocity / (s.samples : ℚ) else 0),
   s.peakVelocity,
   (now - s.startTime) / 1000)

/-! ### Noise buffer generation

Source (src/services/audioService.ts, `AudioEngine.init`):
```
let lastOut = 0;
for (let i = 0; i < bufferSize; i++) {
  const white = Math.random() * 2 - 1;
  output[i] = (lastOut + (0.02 * white)) / 1.02;
  lastOut = output[i];
  output[i] *= 3.5; // (roughly) compensate for gain
}
```
-/

/-- The `white` value at loop iteration `n`, given the stream of
`Math.random()` draws. -/
def whiteSeq (rnd : ℕ → ℚ) (n : ℕ) : ℚ := rnd n * 2 - 1

/-- The filter state `lastOut` before iteration `n` (so `lastOutSeq white 0 = 0`
is the initial value, and `lastOutSeq white (n+1)` is the value written at
iteration `n` before gain compensation). -/
def lastOutSeq (white : ℕ → ℚ) : ℕ → ℚ
  | 0 => 0
  | n + 1 => (lastOutSeq white n + 0.02 * white n) / 1.02

/-- The sample finally stored at buffer index `i`: the filter output times 3.5. -/
def noiseBufferSample (white : ℕ → ℚ) (i : ℕ) : ℚ :=
  lastOutSeq white (i + 1) * 3.5

/-! ### Audio engine state machine

Source: src/services/audioService.ts (`AudioEngine`). An `AudioParam` driven
by `setTargetAtTime` is modelled by its current value, its scheduled target
and the time constant of the exponential approach.
-/

structure ParamState where
  value : ℚ
  target : ℚ
  timeConstant : ℚ

structure AudioEngineState where
  ctx : Option ℕ
  noiseBuffer : Option (ℕ → ℚ)
  noiseLoop : Bool
  noiseStarted : Bool
  filterFreq : Option ParamState
  gain : Option ParamState
  isInitialized : Bool

/-- The state of the module-level `audioEngine` singleton before any call. -/
def AudioEngine.mkState : AudioEngineState :=
  { ctx := none, noiseBuffer := none, noiseLoop := false, noiseStarted := false,
    filterFreq := none, gain := none, isInitialized := false }

/-- `AudioEngine.init`: guarded by `isInitialized`; otherwise creates a fresh
`AudioContext` (modelled by a fresh id `ctxId`), fills the noise buffer from
the random stream `rnd`, sets the lowpass filter to 200 Hz, the gain to 0,
starts the looping noise source and marks the engine initialized. -/
def AudioEngine.init (ctxId : ℕ) (rnd : ℕ → ℚ) (s : AudioEngineState) :
    AudioEngineState :=
  if s.isInitialized then s
  else
    { ctx := some ctxId
      noiseBuffer := some (noiseBufferSample (whiteSeq rnd))
      noiseLoop := true
      noiseStarted := true
      filterFreq := some { value := 200, target := 200, timeConstant := 0 }
      gain := some { value := 0, target := 0, timeConstant := 0 }
      isInitialized := true }

/-- `AudioEngine.updateWind`: no-op unless context, gain node and filter node
all exist; otherwise schedules `setTargetAtTime` on gain (target
`min (intensity * 1.5) 0.8`, time constant 0.1) and on the filter frequency
(target `200 + intensity * 1500`, time constant 0.2). -/
def AudioEngine.updateWind (intensity : ℚ) (s : AudioEngineState) :
    AudioEngineState :=
  match s.ctx, s.gain, s.filterFreq with
  | some _, some g, some f =>
      { s with
        gain := some { value := g.value
                       target := min (intensity * 1.5) 0.8
                       timeConstant := 0.1 }
        filterFreq := some { value := f.value
                             target := 200 + intensity * 1500
                             timeConstant := 0.2 } }
  | _, _, _ => s

/-! ### Velocity estimator

Source (src/unnamed/part_001, `MotionController.predictWebcam`):
```
if (result.landmarks && result.landmarks.length > 0) {
  const wrist = hand[0];
  const currentTime = performance.now();
  if (lastHandPos.current) {
    const dx = wrist.x - lastHandPos.current.x;
    const dy = wrist.y - lastHandPos.current.y;
    const distance = Math.sqrt(dx * dx + dy * dy);
    const dt = (currentTime - lastHandPos.current.time) / 1000; // seconds
    let velocity = distance / dt;
    velocity = Math.min(velocity * 2, 1.5); // Sensitivity multiplier
    onVelocityChange(velocity);
  }
  lastHandPos.current = { x: wrist.x, y: wrist.y, time: currentTime };
} else {
  onVelocityChange(0);
  lastHandPos.current = null;
}
```
One call is modelled as a function of the stored `lastHandPos` and the current
detection (`none` when no hand is detected, otherwise the wrist position with
the capture time in milliseconds), returning the new `lastHandPos` together
with the value passed to `onVelocityChange` (`none` when it is not called).
-/

structure HandSample where
  x : ℝ
  y : ℝ
  time : ℝ

/-- `Math.sqrt(dx * dx + dy * dy)` for the wrist displacement. -/
noncomputable def handDist (p c : HandSample) : ℝ :=
  Real.sqrt ((c.x - p.x) * (c.x - p.x) + (c.y - p.y) * (c.y - p.y))

/-- One `predictWebcam` detection step. -/
noncomputable def estimatorStep (prev : Option HandSample)
    (cur : Option HandSample) : Option HandSample × Option ℝ :=
  match cur with
  | some c =>
    match prev with
    | some p =>
      let dt := (c.time - p.time) / 1000
      let velocity := handDist p c / dt
      (some c, some (min (velocity * 2) 1.5))
    | none => (some c, none)
  | none => (none, some 0)

/-! ### Particle field generation

Source (src/unnamed/part_001, `GalaxyScene`), parameters
`count=15000, radius=5, branches=3, spin=1, randomness=0.2, randomnessPower=3`:
```
const radius = Math.random() * parameters.radius;
const spinAngle = radius * parameters.spin;
const branchAngle = ((i % parameters.branches) / parameters.branches) * Math.PI * 2;
const randomX = Math.pow(Math.random(), parameters.randomnessPower)
  * (Math.random() < 0.5 ? 1 : -1) * parameters.randomness * radius;
... (same for randomY, randomZ)
positions[i3] = Math.cos(branchAngle + spinAngle) * radius + randomX;
positions[i3 + 1] = randomY;
positions[i3 + 2] = Math.sin(branchAngle + spinAngle) * radius + randomZ;
```
`Math.random()` is modelled by a stream `rnd : ℕ → ℝ` of draws in `[0,1)`,
consumed left to right: particle `i` uses draws `7*i` (radius),
`7*i+1, 7*i+2` (x power and sign), `7*i+3, 7*i+4` (y), `7*i+5, 7*i+6` (z).
The power exponent is a parameter `pw` so that `pw = 3` and `pw = 1` can be
compared on identical draws.
-/

def galaxyCount : ℕ := 15000

/-- `radius` drawn for particle `i`. -/
def particleRadius (rnd : ℕ → ℝ) (i : ℕ) : ℝ := rnd (7 * i) * 5

/-- `(Math.random() < 0.5 ? 1 : -1)` applied to the sign draw `d`. -/
noncomputable def axisSign (d : ℝ) : ℝ := if d < 0.5 then 1 else -1

/-- `randomX` for particle `i` with randomness power `pw`. -/
noncomputable def particleOffsetX (pw : ℕ) (rnd : ℕ → ℝ) (i : ℕ) : ℝ :=
  rnd (7 * i + 1) ^ pw * axisSign (rnd (7 * i + 2)) * 0.2 * particleRadius rnd i

/-- `randomY` for particle `i` with randomness power `pw`. -/
noncomputable def particleOffsetY (pw : ℕ) (rnd : ℕ → ℝ) (i : ℕ) : ℝ :=
  rnd (7 * i + 3) ^ pw * axisSign (rnd (7 * i + 4)) * 0.2 * particleRadius rnd i

/-- `randomZ` for particle `i` with randomness power `pw`. -/
noncomputable def particleOffsetZ (pw : ℕ) (rnd : ℕ → ℝ) (i : ℕ) : ℝ :=
  rnd (7 * i + 5) ^ pw * axisSign (rnd (7 * i + 6)) * 0.2 * particleRadius rnd i

/-- `branchAngle` for particle `i` (3 branches). -/
noncomputable def branchAngle (i : ℕ) : ℝ :=
  ((i % 3 : ℕ) : ℝ) / 3 * Real.pi * 2

/-- `spinAngle` for particle `i` (spin = 1). -/
def spinAngle (rnd : ℕ → ℝ) (i : ℕ) : ℝ := particleRadius rnd i * 1

/-- Stored x coordinate of particle `i`. -/
noncomputable def particlePosX (pw : ℕ) (rnd : ℕ → ℝ) (i : ℕ) : ℝ :=
  Real.cos (branchAngle i + spinAngle rnd i) * particleRadius rnd i
    + particleOffsetX pw rnd i

/-- Stored y coordinate of particle `i` (flat galaxy: noise only). -/
noncomputable def particlePosY (pw : ℕ) (rnd : ℕ → ℝ) (i : ℕ) : ℝ :=
  particleOffsetY pw rnd i

/-- Stored z coordinate of particle `i`. -/
noncomputable def particlePosZ (pw : ℕ) (rnd : ℕ → ℝ) (i : ℕ) : ℝ :=
  Real.sin (branchAngle i + spinAngle rnd i) * particleRadius rnd i
    + particleOffsetZ pw rnd i

/-- Mean absolute per-axis random offset over the whole generated field. -/
noncomputable def meanAbsOffset (pw : ℕ) (rnd : ℕ → ℝ) : ℝ :=
  (∑ i in Finset.range galaxyCount,
    (|particleOffsetX pw rnd i| + |particleOffsetY pw rnd i|
      + |particleOffsetZ pw rnd i|)) / (3 * galaxyCount)

/-! ## Helper lemmas -/

/-- Closed form of the smoother iteration: geometric approach to the target. -/
lemma smoothIter_closed (T s0 : ℚ) (n : ℕ) :
    smoothIter T s0 n = T + (s0 - T) * (9 / 10) ^ n := by
  induction n with
  | zero => simp [smoothIter]
  | succ n ih =>
      rw [smoothIter, smoothTick, ih]
      ring

/-- Invariant maintained by the stats accumulator: nonnegative peak,
nonnegative sum, sum bounded by peak times count, and sum strictly above the
deadband times count once anything was recorded. -/
def statsOK (s : SessionStats) : Prop :=
  0 ≤ s.peakVelocity ∧ 0 ≤ s.totalVelocity
    ∧ s.totalVelocity ≤ s.peakVelocity * (s.samples : ℚ)
    ∧ (0 < s.samples → 0.05 * (s.samples : ℚ) < s.totalVelocity)

lemma statsOK_init (t : ℚ) : statsOK (initStats t) := by
  refine ⟨le_refl 0, le_refl 0, by simp [initStats], fun h => ?_⟩
  simp [initStats] at h

lemma statsOK_record (v : ℚ) (s : SessionStats) (h : statsOK s) :
    statsOK (recordStat v s) := by
  obtain ⟨hp, ht, htp, hd⟩ := h
  rw [recordStat]
  by_cases hv : (0.05:ℚ) < v
  · rw [if_pos hv]
    have hds : 0.05 * (s.samples : ℚ) ≤ s.totalVelocity := by
      rcases Nat.eq_zero_or_pos s.samples with h0 | h0
      · rw [h0]
        push_cast
        linarith
      · linarith [hd h0]
    by_cases hpv : s.peakVelocity < v
    · rw [if_pos hpv]
      refine ⟨?_, ?_, ?_, fun _ => ?_⟩
      · show (0:ℚ) ≤ v
        linarith
      · show (0:ℚ) ≤ s.totalVelocity + v
        linarith
      · show s.totalVelocity + v ≤ v * ((s.samples + 1 : ℕ) : ℚ)
        push_cast
        have hmono : s.peakVelocity * (s.samples:ℚ) ≤ v * (s.samples:ℚ) :=
          mul_le_mul_of_nonneg_right (le_of_lt hpv) (Nat.cast_nonneg _)
        nlinarith
      · show (0.05:ℚ) * ((s.samples + 1 : ℕ) : ℚ) < s.totalVelocity + v
        push_cast
        linarith
    · rw [if_neg hpv]
      push_neg at hpv
      refine ⟨hp, ?_, ?_, fun _ => ?_⟩
      · show (0:ℚ) ≤ s.totalVelocity + v
        linarith
      · show s.totalVelocity + v ≤ s.peakVelocity * ((s.samples + 1 : ℕ) : ℚ)
        push_cast
        nlinarith
      · show (0.05:ℚ) * ((s.samples + 1 : ℕ) : ℚ) < s.totalVelocity + v
        push_cast
        linarith
  · rw [if_neg hv]
    exact ⟨hp, ht, htp, hd⟩

lemma statsOK_recordAll (vs : List ℚ) (s : SessionStats) (h : statsOK s) :
    statsOK (recordAll vs s) := by
  induction vs generalizing s with
  | nil => exact h
  | cons v vs ih => exact ih _ (statsOK_record v s h)

/-- Bound for the one-pole noise filter state: it never leaves `[-1,1]`. -/
lemma lastOutSeq_bounded (white : ℕ → ℚ) (h : ∀ n, -1 ≤ white n ∧ white n ≤ 1) :
    ∀ n, -1 ≤ lastOutSeq white n ∧ lastOutSeq white n ≤ 1 := by
  intro n
  induction n with
  | zero => norm_num [lastOutSeq]
  | succ n ih =>
      obtain ⟨h1, h2⟩ := h n
      obtain ⟨i1, i2⟩ := ih
      rw [lastOutSeq]
      constructor
      · rw [le_div_iff₀ (by norm_num : (0:ℚ) < 1.02)]
        linarith
      · rw [div_le_iff₀ (by norm_num : (0:ℚ) < 1.02)]
        linarith

/-! ## Claims -/

/-- Claim C3: with lerpFactor 0.1, each tick updates state by exactly
0.1 * (target - state); with constant target T the state approaches T
monotonically and never overshoots; it converges to T; starting from 0.8
with target 0, the state after n ticks is 0.8 * 0.9 ^ n, which is within
0.001 of 0.279 after 10 ticks. -/
theorem temporalSmoother_contraction :
    (∀ T s : ℚ, smoothTick T s = s + 0.1 * (T - s))
    ∧ (∀ T s0 : ℚ, ∀ n : ℕ,
        (s0 ≤ T → smoothIter T s0 n ≤ smoothIter T s0 (n + 1)
          ∧ smoothIter T s0 n ≤ T)
        ∧ (T ≤ s0 → smoothIter T s0 (n + 1) ≤ smoothIter T s0 n
          ∧ T ≤ smoothIter T s0 n))
    ∧ (∀ T s0 ε : ℚ, 0 < ε → ∃ N, ∀ n, N ≤ n → |smoothIter T s0 n - T| < ε)
    ∧ (∀ n : ℕ, smoothIter 0 0.8 n = 0.8 * 0.9 ^ n)
    ∧ |smoothIter 0 0.8 10 - 0.279| < 0.001 := by
  have key : ∀ T s0 : ℚ, ∀ n : ℕ,
      smoothIter T s0 (n + 1) - T = (smoothIter T s0 n - T) * (9 / 10) := by
    intro T s0 n
    rw [smoothIter_closed, smoothIter_closed]
    ring
  refine ⟨?_, ?_, ?_, ?_, ?_⟩
  · intro T s
    rw [smoothTick]
    ring
  · intro T s0 n
    have hqn : (0:ℚ) ≤ (9 / 10) ^ n := by positivity
    have hk := key T s0 n
    constructor <;> intro h
    · have hd : smoothIter T s0 n - T ≤ 0 := by
        rw [smoothIter_closed]
        nlinarith
      constructor <;> linarith
    · have hd : 0 ≤ smoothIter T s0 n - T := by
        rw [smoothIter_closed]
        nlinarith
      constructor <;> linarith
  · intro T s0 ε hε
    have hC0 : (0:ℚ) ≤ |s0 - T| := abs_nonneg _
    obtain ⟨N, hN⟩ := exists_pow_lt_of_lt_one
      (show (0:ℚ) < ε / (|s0 - T| + 1) from div_pos hε (by linarith))
      (show (9:ℚ)/10 < 1 by norm_num)
    refine ⟨N, fun n hn => ?_⟩
    have h1 : smoothIter T s0 n - T = (s0 - T) * (9 / 10) ^ n := by
      rw [smoothIter_closed]
      ring
    rw [h1, abs_mul, abs_pow, abs_of_nonneg (show (0:ℚ) ≤ 9/10 by norm_num)]
    have h2 : ((9:ℚ)/10) ^ n ≤ (9/10) ^ N :=
      pow_le_pow_of_le_one (by norm_num) (by norm_num) hn
    have hqn : (0:ℚ) ≤ (9 / 10) ^ n := by positivity
    calc |s0 - T| * (9/10) ^ n
        ≤ (|s0 - T| + 1) * (9/10) ^ n := by nlinarith
      _ ≤ (|s0 - T| + 1) * (9/10) ^ N := by nlinarith
      _ < (|s0 - T| + 1) * (ε / (|s0 - T| + 1)) :=
          mul_lt_mul_of_pos_left hN (by linarith)
      _ = ε := by field_simp
  · intro n
    rw [smoothIter_closed, show (0.9:ℚ) = 9/10 by norm_num]
    ring
  · rw [smoothIter_closed, abs_lt]
    constructor <;> norm_num

/-- Witness for C3 at concrete inputs: target 1 from state 0 (monotone step,
no overshoot) and convergence of the decay from 0.8 toward 0. -/
theorem temporalSmoother_contraction_witness :
    (smoothIter 1 0 0 ≤ smoothIter 1 0 1 ∧ smoothIter 1 0 0 ≤ 1)
    ∧ ∃ N, ∀ n, N ≤ n → |smoothIter 0 0.8 n - 0| < 0.01 :=
  ⟨(temporalSmoother_contraction.2.1 1 0 0).1 (by norm_num),
   temporalSmoother_contraction.2.2.1 0 0.8 0.01 (by norm_num)⟩

/-- Claim C6: the stats accumulator records a sample only when the smoothed
intensity is strictly above the 0.05 deadband (then incrementing the count,
adding to the sum and raising the peak if exceeded), and finalization returns
sum / count when the count is positive, 0 otherwise, together with the peak
and the duration in seconds. -/
theorem sessionStats_record_finalize :
    (∀ (v : ℚ) (s : SessionStats), 0.05 < v → recordStat v s =
      { totalVelocity := s.totalVelocity + v
        peakVelocity := if s.peakVelocity < v then v else s.peakVelocity
        samples := s.samples + 1
        startTime := s.startTime })
    ∧ (∀ (v : ℚ) (s : SessionStats), ¬ 0.05 < v → recordStat v s = s)
    ∧ (∀ (now : ℚ) (s : SessionStats), 0 < s.samples →
        (finalizeStats now s).1 = s.totalVelocity / (s.samples : ℚ))
    ∧ (∀ (now : ℚ) (s : SessionStats), s.samples = 0 →
        (finalizeStats now s).1 = 0)
    ∧ (∀ (now : ℚ) (s : SessionStats),
        (finalizeStats now s).2.1 = s.peakVelocity
        ∧ (finalizeStats now s).2.2 = (now - s.startTime) / 1000) := by
  refine ⟨?_, ?_, ?_, ?_, ?_⟩
  · intro v s h
    rw [recordStat, if_pos h]
  · intro v s h
    rw [recordStat, if_neg h]
  · intro now s h
    show (if 0 < s.samples then s.totalVelocity / (s.samples : ℚ) else 0) = _
    rw [if_pos h]
  · intro now s h
    show (if 0 < s.samples then s.totalVelocity / (s.samples : ℚ) else 0) = 0
    rw [if_neg (by simp [h])]
  · intro now s
    exact ⟨rfl, rfl⟩

/-- Witness for C6: recording 0.5 into a fresh session and finalizing 2
seconds in gives average 0.5, peak 0.5, duration 2 s. -/
theorem sessionStats_record_finalize_witness :
    recordStat 0.5 (initStats 0) =
      { totalVelocity := 0.5, peakVelocity := 0.5, samples := 1, startTime := 0 }
    ∧ (finalizeStats 2000
        { totalVelocity := 0.5, peakVelocity := 0.5, samples := 1, startTime := 0 }).1
      = 0.5
    ∧ (finalizeStats 2000
        { totalVelocity := 0.5, peakVelocity := 0.5, samples := 1, startTime := 0 }).2.2
      = 2 := by
  refine ⟨?_, ?_, ?_⟩
  · rw [sessionStats_record_finalize.1 0.5 (initStats 0) (by norm_num)]
    simp only [initStats]
    norm_num
  · rw [sessionStats_record_finalize.2.2.1 2000 _ (by norm_num)]
    norm_num
  · rw [(sessionStats_record_finalize.2.2.2.2 2000
        { totalVelocity := 0.5, peakVelocity := 0.5, samples := 1,
          startTime := 0 }).2]
    norm_num

/-- Claim C10: starting from a freshly reset session, whenever at least one
sample was recorded, the average intensity sum / count is strictly greater
than the 0.05 deadband and at most the recorded peak. -/
theorem sessionStats_average_invariant (vs : List ℚ) (t : ℚ)
    (h : 0 < (recordAll vs (initStats t)).samples) :
    0.05 < (recordAll vs (initStats t)).totalVelocity
        / ((recordAll vs (initStats t)).samples : ℚ)
    ∧ (recordAll vs (initStats t)).totalVelocity
        / ((recordAll vs (initStats t)).samples : ℚ)
      ≤ (recordAll vs (initStats t)).peakVelocity := by
  obtain ⟨hp, ht, htp, hd⟩ := statsOK_recordAll vs (initStats t) (statsOK_init t)
  have hn : (0:ℚ) < ((recordAll vs (initStats t)).samples : ℚ) := by
    exact_mod_cast h
  constructor
  · rw [lt_div_iff₀ hn]
    linarith [hd h]
  · rw [div_le_iff₀ hn]
    linarith

/-- Witness for C10 at the one-sample session [0.5] started at t = 0. -/
theorem sessionStats_average_invariant_witness :
    0.05 < (recordAll [0.5] (initStats 0)).totalVelocity
        / ((recordAll [0.5] (initStats 0)).samples : ℚ)
    ∧ (recordAll [0.5] (initStats 0)).totalVelocity
        / ((recordAll [0.5] (initStats 0)).samples : ℚ)
      ≤ (recordAll [0.5] (initStats 0)).peakVelocity :=
  sessionStats_average_invariant [0.5] 0
    (by norm_num [recordAll, recordStat, initStats])

/-- Claim C9: with every white draw in [-1,1], the pre-gain filter state
stays in [-1,1] by induction from 0, so every stored noise-buffer sample has
absolute value at most 3.5; in particular this holds for the white values
`rnd n * 2 - 1` produced from `Math.random()` draws in [0,1]. -/
theorem noiseBuffer_bounded :
    (∀ white : ℕ → ℚ, (∀ n, -1 ≤ white n ∧ white n ≤ 1) →
      (∀ n, -1 ≤ lastOutSeq white n ∧ lastOutSeq white n ≤ 1)
      ∧ ∀ i, |noiseBufferSample white i| ≤ 3.5)
    ∧ (∀ rnd : ℕ → ℚ, (∀ n, 0 ≤ rnd n ∧ rnd n ≤ 1) →
        ∀ i, |noiseBufferSample (whiteSeq rnd) i| ≤ 3.5) := by
  have main : ∀ white : ℕ → ℚ, (∀ n, -1 ≤ white n ∧ white n ≤ 1) →
      (∀ n, -1 ≤ lastOutSeq white n ∧ lastOutSeq white n ≤ 1)
      ∧ ∀ i, |noiseBufferSample white i| ≤ 3.5 := by
    intro white h
    refine ⟨lastOutSeq_bounded white h, fun i => ?_⟩
    obtain ⟨h1, h2⟩ := lastOutSeq_bounded white h (i + 1)
    rw [noiseBufferSample, abs_le]
    constructor <;> linarith
  refine ⟨main, fun rnd h i => (main (whiteSeq rnd) fun n => ?_).2 i⟩
  obtain ⟨h1, h2⟩ := h n
  rw [whiteSeq]
  constructor <;> linarith

/-- Witness for C9: all-ones white stream, and the stream generated from the
constant 1/2 random draw. -/
theorem noiseBuffer_bounded_witness :
    |noiseBufferSample (fun _ => 1) 0| ≤ 3.5
    ∧ |noiseBufferSample (whiteSeq fun _ => 1/2) 3| ≤ 3.5 :=
  ⟨(noiseBuffer_bounded.1 (fun _ => 1) fun _ => by norm_num).2 0,
   noiseBuffer_bounded.2 (fun _ => 1/2) (fun _ => by norm_num) 3⟩

/-- Claim C8: `init` is idempotent — the second call hits the
`isInitialized` guard and is a no-op, leaving the full state (context, noise
source, filter, gain, flag) from the first call, even if the second call
would have had a different context or random stream available. -/
theorem audioEngine_init_idempotent :
    ∀ (c1 c2 : ℕ) (r1 r2 : ℕ → ℚ) (s : AudioEngineState),
      AudioEngine.init c2 r2 (AudioEngine.init c1 r1 s) = AudioEngine.init c1 r1 s
      ∧ (AudioEngine.init c1 r1 s).isInitialized = true := by
  intro c1 c2 r1 r2 s
  by_cases h : s.isInitialized <;> simp [AudioEngine.init, h]

/-- Claim C4: whenever context, gain node and filter node exist, the wind
update schedules gain target `min (intensity * 1.5) 0.8` (time constant 0.1)
and cutoff target `200 + intensity * 1500` (time constant 0.2); on a freshly
initialized engine, intensity 0 targets gain 0 and cutoff 200 Hz, and
intensity 1 targets gain 0.8 (clamped) and cutoff 1700 Hz. -/
theorem audioEngine_updateWind_targets :
    (∀ (i : ℚ) (s : AudioEngineState) (c : ℕ) (g f : ParamState),
      s.ctx = some c → s.gain = some g → s.filterFreq = some f →
        (AudioEngine.updateWind i s).gain
          = some { value := g.value, target := min (i * 1.5) 0.8,
                   timeConstant := 0.1 }
        ∧ (AudioEngine.updateWind i s).filterFreq
          = some { value := f.value, target := 200 + i * 1500,
                   timeConstant := 0.2 })
    ∧ ((AudioEngine.updateWind 0
          (AudioEngine.init 0 (fun _ => 0) AudioEngine.mkState)).gain
        = some { value := 0, target := 0, timeConstant := 0.1 }
      ∧ (AudioEngine.updateWind 0
          (AudioEngine.init 0 (fun _ => 0) AudioEngine.mkState)).filterFreq
        = some { value := 200, target := 200, timeConstant := 0.2 })
    ∧ ((AudioEngine.updateWind 1
          (AudioEngine.init 0 (fun _ => 0) AudioEngine.mkState)).gain
        = some { value := 0, target := 0.8, timeConstant := 0.1 }
      ∧ (AudioEngine.updateWind 1
          (AudioEngine.init 0 (fun _ => 0) AudioEngine.mkState)).filterFreq
        = some { value := 200, target := 1700, timeConstant := 0.2 }) := by
  have hgen : ∀ (i : ℚ) (s : AudioEngineState) (c : ℕ) (g f : ParamState),
      s.ctx = some c → s.gain = some g → s.filterFreq = some f →
        (AudioEngine.updateWind i s).gain
          = some { value := g.value, target := min (i * 1.5) 0.8,
                   timeConstant := 0.1 }
        ∧ (AudioEngine.updateWind i s).filterFreq
          = some { value := f.value, target := 200 + i * 1500,
                   timeConstant := 0.2 } := by
    intro i s c g f hc hg hf
    obtain ⟨sc, snb, snl, sns, sff, sg, sii⟩ := s
    dsimp only at hc hg hf
    subst hc
    subst hg
    subst hf
    exact ⟨rfl, rfl⟩
  have h0 := hgen 0 (AudioEngine.init 0 (fun _ => 0) AudioEngine.mkState) 0
      { value := 0, target := 0, timeConstant := 0 }
      { value := 200, target := 200, timeConstant := 0 } rfl rfl rfl
  have h1 := hgen 1 (AudioEngine.init 0 (fun _ => 0) AudioEngine.mkState) 0
      { value := 0, target := 0, timeConstant := 0 }
      { value := 200, target := 200, timeConstant := 0 } rfl rfl rfl
  refine ⟨hgen, ⟨?_, ?_⟩, ⟨?_, ?_⟩⟩
  · rw [h0.1]
    norm_num [min_def]
  · rw [h0.2]
    norm_num
  · rw [h1.1]
    norm_num [min_def]
  · rw [h1.2]
    norm_num

/-- Witness for C4: the general target formula applied at intensity 0.5 on a
freshly initialized engine. -/
theorem audioEngine_updateWind_targets_witness :
    (AudioEngine.updateWind 0.5
        (AudioEngine.init 7 (fun _ => 0) AudioEngine.mkState)).gain
      = some { value := 0, target := min ((0.5:ℚ) * 1.5) 0.8, timeConstant := 0.1 }
    ∧ (AudioEngine.updateWind 0.5
        (AudioEngine.init 7 (fun _ => 0) AudioEngine.mkState)).filterFreq
      = some { value := 200, target := 200 + (0.5:ℚ) * 1500, timeConstant := 0.2 } :=
  audioEngine_updateWind_targets.1 0.5
    (AudioEngine.init 7 (fun _ => 0) AudioEngine.mkState) 7
    { value := 0, target := 0, timeConstant := 0 }
    { value := 200, target := 200, timeConstant := 0 }
    rfl rfl rfl

/-- Claim C5: with no hand in the current frame the estimator emits an
explicit 0 and clears its stored previous sample; with a hand but no
previous sample it emits nothing (stores the sample for the next frame). -/
theorem velocityEstimator_no_hand :
    (∀ prev : Option HandSample, estimatorStep prev none = (none, some 0))
    ∧ (∀ c : HandSample, estimatorStep none (some c) = (some c, none)) :=
  ⟨fun _ => rfl, fun _ => rfl⟩

/-- Claim C2: for consecutive samples with increasing timestamps the
estimator emits exactly min(2 * distance / dt, 1.5) ≥ 0 with dt in seconds,
and the sequence (0.1, 0.1) at t = 0 ms then (0.3, 0.1) at t = 100 ms
yields 1.5. -/
theorem velocityEstimator_formula :
    (∀ p c : HandSample, p.time < c.time →
      estimatorStep (some p) (some c)
        = (some c,
           some (min (2 * (handDist p c / ((c.time - p.time) / 1000))) 1.5))
      ∧ 0 ≤ min (2 * (handDist p c / ((c.time - p.time) / 1000))) (1.5:ℝ))
    ∧ estimatorStep (some { x := 0.1, y := 0.1, time := 0 })
        (some { x := 0.3, y := 0.1, time := 100 })
        = (some { x := 0.3, y := 0.1, time := 100 }, some 1.5) := by
  constructor
  · intro p c hlt
    have hdt : (0:ℝ) < (c.time - p.time) / 1000 := by
      have := sub_pos.2 hlt
      positivity
    constructor
    · show (some c,
          some (min (handDist p c / ((c.time - p.time) / 1000) * 2) 1.5)) = _
      rw [mul_comm]
    · exact le_min
        (mul_nonneg (by norm_num)
          (div_nonneg (Real.sqrt_nonneg _) hdt.le))
        (by norm_num)
  · have hd : handDist { x := 0.1, y := 0.1, time := 0 }
        { x := 0.3, y := 0.1, time := 100 } = 0.2 := by
      unfold handDist
      rw [show ((0.3:ℝ) - 0.1) * (0.3 - 0.1) + ((0.1:ℝ) - 0.1) * (0.1 - 0.1)
          = 0.2 * 0.2 by norm_num]
      exact Real.sqrt_mul_self (by norm_num)
    show (some _,
        some (min (handDist { x := 0.1, y := 0.1, time := 0 }
            { x := 0.3, y := 0.1, time := 100 }
          / (((100:ℝ) - 0) / 1000) * 2) 1.5)) = _
    rw [hd]
    norm_num [min_def]

/-- Witness for C2: two zero-displacement samples 100 ms apart satisfy the
timestamp hypothesis and the emitted value matches the formula. -/
theorem velocityEstimator_formula_witness :
    estimatorStep (some { x := 0, y := 0, time := 0 })
      (some { x := 0, y := 0, time := 100 })
      = (some { x := 0, y := 0, time := 100 },
         some (min (2 * (handDist { x := 0, y := 0, time := 0 }
             { x := 0, y := 0, time := 100 } / (((100:ℝ) - 0) / 1000))) 1.5))
    ∧ 0 ≤ min (2 * (handDist { x := 0, y := 0, time := 0 }
        { x := 0, y := 0, time := 100 } / (((100:ℝ) - 0) / 1000))) (1.5:ℝ) :=
  velocityEstimator_formula.1 { x := 0, y := 0, time := 0 }
    { x := 0, y := 0, time := 100 } (by norm_num)

/-- Claim C1 fails on the code: `predictWebcam` has no dt ≤ 0 guard. At a
previous sample (0,0) taken at t = 100 ms and a current sample (0.3,0) at
t = 0 ms the code divides by the negative dt, calls onVelocityChange with
min(2 * (0.3 / -0.1), 1.5) = -6, and overwrites the stored sample — the
update is not a no-op and an intensity is emitted. -/
theorem velocityEstimator_nonmonotonic_emits :
    estimatorStep (some { x := 0, y := 0, time := 100 })
      (some { x := 0.3, y := 0, time := 0 })
      = (some { x := 0.3, y := 0, time := 0 }, some (-6))
    ∧ (estimatorStep (some { x := 0, y := 0, time := 100 })
        (some { x := 0.3, y := 0, time := 0 })).1
      ≠ some { x := 0, y := 0, time := 100 }
    ∧ (estimatorStep (some { x := 0, y := 0, time := 100 })
        (some { x := 0.3, y := 0, time := 0 })).2 ≠ none := by
  have hd : handDist { x := 0, y := 0, time := 100 }
      { x := 0.3, y := 0, time := 0 } = 0.3 := by
    unfold handDist
    rw [show ((0.3:ℝ) - 0) * (0.3 - 0) + ((0:ℝ) - 0) * (0 - 0)
        = 0.3 * 0.3 by norm_num]
    exact Real.sqrt_mul_self (by norm_num)
  have he : estimatorStep (some { x := 0, y := 0, time := 100 })
      (some { x := 0.3, y := 0, time := 0 })
      = (some { x := 0.3, y := 0, time := 0 }, some (-6)) := by
    show (some _,
        some (min (handDist { x := 0, y := 0, time := 100 }
            { x := 0.3, y := 0, time := 0 }
          / (((0:ℝ) - 100) / 1000) * 2) 1.5)) = _
    rw [hd]
    norm_num [min_def]
  refine ⟨he, ?_, ?_⟩
  · rw [he]
    simp only [Option.some.injEq, HandSample.mk.injEq, ne_eq]
    norm_num
  · rw [he]
    simp

lemma abs_axisSign (d : ℝ) : |axisSign d| = 1 := by
  unfold axisSign
  split <;> norm_num

lemma abs_offset_eq (pw : ℕ) (a s R : ℝ) (ha : 0 ≤ a) (hR : 0 ≤ R) :
    |a ^ pw * axisSign s * 0.2 * R| = a ^ pw * 0.2 * R := by
  rw [abs_mul, abs_mul, abs_mul, abs_pow, abs_axisSign, abs_of_nonneg ha,
    abs_of_nonneg hR, abs_of_nonneg (show (0:ℝ) ≤ 0.2 by norm_num)]
  ring

lemma abs_offset_le (a s R : ℝ) (ha0 : 0 ≤ a) (ha1 : a ≤ 1) (hR : 0 ≤ R) :
    |a ^ 3 * axisSign s * 0.2 * R| ≤ |a ^ 1 * axisSign s * 0.2 * R| := by
  rw [abs_offset_eq 3 a s R ha0 hR, abs_offset_eq 1 a s R ha0 hR]
  exact mul_le_mul_of_nonneg_right
    (mul_le_mul_of_nonneg_right
      (pow_le_pow_of_le_one ha0 ha1 (by norm_num)) (by norm_num)) hR

lemma abs_offset_lt (a s R : ℝ) (ha0 : 0 < a) (ha1 : a < 1) (hR : 0 < R) :
    |a ^ 3 * axisSign s * 0.2 * R| < |a ^ 1 * axisSign s * 0.2 * R| := by
  rw [abs_offset_eq 3 a s R ha0.le hR.le, abs_offset_eq 1 a s R ha0.le hR.le]
  exact mul_lt_mul_of_pos_right
    (mul_lt_mul_of_pos_right
      (pow_lt_pow_right_of_lt_one₀ ha0 ha1 (by norm_num)) (by norm_num)) hR

/-- Claim C7 (amended): with identical draws in [0,1), raising
randomnessPower from 1 to 3 never increases the absolute value of any
per-axis random offset, hence the mean absolute per-axis offset for power 3
is at most that for power 1; the decrease is strict for a particle whose
radius draw and power draw are both nonzero. -/
theorem particleField_power_tightens (rnd : ℕ → ℝ)
    (h : ∀ n, 0 ≤ rnd n ∧ rnd n < 1) :
    (∀ i, |particleOffsetX 3 rnd i| ≤ |particleOffsetX 1 rnd i|
       ∧ |particleOffsetY 3 rnd i| ≤ |particleOffsetY 1 rnd i|
       ∧ |particleOffsetZ 3 rnd i| ≤ |particleOffsetZ 1 rnd i|)
    ∧ meanAbsOffset 3 rnd ≤ meanAbsOffset 1 rnd
    ∧ (∀ i, 0 < rnd (7 * i) → 0 < rnd (7 * i + 1) →
        |particleOffsetX 3 rnd i| < |particleOffsetX 1 rnd i|) := by
  have hR : ∀ i, 0 ≤ particleRadius rnd i := fun i =>
    mul_nonneg (h (7 * i)).1 (by norm_num)
  have hax : ∀ i, |particleOffsetX 3 rnd i| ≤ |particleOffsetX 1 rnd i| :=
    fun i => abs_offset_le _ _ _ (h _).1 (h _).2.le (hR i)
  have hay : ∀ i, |particleOffsetY 3 rnd i| ≤ |particleOffsetY 1 rnd i| :=
    fun i => abs_offset_le _ _ _ (h _).1 (h _).2.le (hR i)
  have haz : ∀ i, |particleOffsetZ 3 rnd i| ≤ |particleOffsetZ 1 rnd i| :=
    fun i => abs_offset_le _ _ _ (h _).1 (h _).2.le (hR i)
  refine ⟨fun i => ⟨hax i, hay i, haz i⟩, ?_, ?_⟩
  · unfold meanAbsOffset
    have hsum : (∑ i in Finset.range galaxyCount,
        (|particleOffsetX 3 rnd i| + |particleOffsetY 3 rnd i|
          + |particleOffsetZ 3 rnd i|))
        ≤ ∑ i in Finset.range galaxyCount,
        (|particleOffsetX 1 rnd i| + |particleOffsetY 1 rnd i|
          + |particleOffsetZ 1 rnd i|) := by
      refine Finset.sum_le_sum fun i _ => ?_
      have h1 := hax i
      have h2 := hay i
      have h3 := haz i
      linarith
    exact div_le_div_of_nonneg_right hsum (by norm_num [galaxyCount])
  · intro i hri hai
    exact abs_offset_lt _ _ _ hai (h _).2 (mul_pos hri (by norm_num))

/-- Witness for C7 (amended) at the constant draw stream 1/2. -/
theorem particleField_power_tightens_witness :
    meanAbsOffset 3 (fun _ => (1/2:ℝ)) ≤ meanAbsOffset 1 (fun _ => (1/2:ℝ))
    ∧ |particleOffsetX 3 (fun _ => (1/2:ℝ)) 0|
      < |particleOffsetX 1 (fun _ => (1/2:ℝ)) 0| :=
  ⟨(particleField_power_tightens (fun _ => (1/2:ℝ))
      fun _ => ⟨by norm_num, by norm_num⟩).2.1,
   (particleField_power_tightens (fun _ => (1/2:ℝ))
      fun _ => ⟨by norm_num, by norm_num⟩).2.2 0 (by norm_num) (by norm_num)⟩

/-- Counterexample to C7 as stated: on the legal all-zero draw stream every
offset is 0 for both powers, so no per-axis offset strictly decreases and
the mean absolute offset is equal, not smaller. -/
theorem particleField_strict_decrease_false :
    (∀ n : ℕ, 0 ≤ (fun _ : ℕ => (0:ℝ)) n ∧ (fun _ : ℕ => (0:ℝ)) n < 1)
    ∧ particleOffsetX 3 (fun _ => 0) 0 = 0
    ∧ particleOffsetX 1 (fun _ => 0) 0 = 0
    ∧ ¬ |particleOffsetX 3 (fun _ => 0) 0| < |particleOffsetX 1 (fun _ => 0) 0|
    ∧ meanAbsOffset 3 (fun _ => 0) = meanAbsOffset 1 (fun _ => 0)
    ∧ ¬ meanAbsOffset 3 (fun _ => 0) < meanAbsOffset 1 (fun _ => 0) := by
  have hoffX : ∀ pw i, particleOffsetX pw (fun _ => (0:ℝ)) i = 0 := by
    intro pw i
    unfold particleOffsetX particleRadius
    norm_num
  have hoffY : ∀ pw i, particleOffsetY pw (fun _ => (0:ℝ)) i = 0 := by
    intro pw i
    unfold particleOffsetY particleRadius
    norm_num
  have hoffZ : ∀ pw i, particleOffsetZ pw (fun _ => (0:ℝ)) i = 0 := by
    intro pw i
    unfold particleOffsetZ particleRadius
    norm_num
  have hmean : ∀ pw, meanAbsOffset pw (fun _ => (0:ℝ)) = 0 := by
    intro pw
    unfold meanAbsOffset
    rw [Finset.sum_eq_zero, zero_div]
    intro i _
    rw [hoffX pw i, hoffY pw i, hoffZ pw i]
    norm_num
  refine ⟨fun n => ⟨le_refl 0, by norm_num⟩, hoffX 3 0, hoffX 1 0, ?_, ?_, ?_⟩
  · rw [hoffX 3 0, hoffX 1 0]
    simp
  · rw [hmean 3, hmean 1]
  · rw [hmean 3, hmean 1]
    simp

end CosmicFlow
